import Mathlib

/-!
Verification of the session-managed chat relay implemented in `server.js`.

The relay keeps a process-wide map `chatSessions` from session keys
(`selectedUserType_sessionId` strings) to upstream chat handles, validates
the inbound message, lazily creates a handle bound to the category's system
instruction and fixed generation parameters, forwards the message to the
upstream collaborator, and classifies failures into HTTP statuses.

The upstream collaborator (the hosted generation API) is opaque: its
behaviour during handle creation and during a send is supplied to the
embedded handler as explicit oracle arguments (`InitResult`, `SendResult`),
mirroring the fact that the relay only observes success, a reply text, or a
thrown error carrying a message string.
-/

namespace ChatRelay

/-- Subset of JSON values that can appear in the `message` field of the
request body; `none` at the call site stands for an absent field. -/
inductive JsonVal where
  | null
  | str (s : String)
  | num (n : Int)
  | bool (b : Bool)
deriving DecidableEq

/-- The `generationConfig` object passed to `model.startChat` in
`server.js` (lines 80-85).  The numeric sampling parameters are exact
decimal literals in the source, embedded as rationals. -/
structure GenerationConfig where
  maxOutputTokens : Nat
  temperature : Rat
  topP : Rat
  topK : Nat
deriving DecidableEq

/-- An upstream chat handle as configured by `genAI.getGenerativeModel` and
`model.startChat` (`server.js` lines 73-86): model name, the system
instruction chosen for the category, the (upstream-owned) history, and the
generation parameters fixed at creation. -/
structure Chat where
  modelName : String
  systemInstruction : String
  history : List String
  generationConfig : GenerationConfig
deriving DecidableEq

/-- The `chatSessions` map (`server.js` line 23), embedded as an
association list from session keys to handles.  JavaScript `Map` keys are
unique, so `get` finds the entry for a key and `delete` removes it. -/
abbrev SessionTable := List (String × Chat)

/-- `chatSessions.get(k)` (`server.js` line 69). -/
def tableGet (t : SessionTable) (k : String) : Option Chat :=
  (t.find? fun p => p.1 == k).map Prod.snd

/-- `chatSessions.set(k, v)` (`server.js` line 88): replaces the entry for
an existing key, otherwise appends a new entry. -/
def tableSet (t : SessionTable) (k : String) (v : Chat) : SessionTable :=
  if (t.find? fun p => p.1 == k).isSome then
    t.map fun p => if p.1 == k then (k, v) else p
  else
    t ++ [(k, v)]

/-- `chatSessions.delete(k)` (`server.js` line 160): removes the entry for
the key (JavaScript `Map` keys are unique, so filtering the key out is the
deletion of its entry). -/
def tableDelete (t : SessionTable) (k : String) : SessionTable :=
  t.filter fun p => !(p.1 == k)

/-- Number of entries stored under a key. -/
def countKey (t : SessionTable) (k : String) : Nat :=
  (t.filter fun p => p.1 == k).length

/-- The stored ConversationKeys, in table order. -/
def tableKeys (t : SessionTable) : List String :=
  t.map Prod.fst

/-- The three per-category system instruction texts of `server.js`
lines 26-48 (the `instructions` object); `none` for any other key, as
JavaScript property access on the object yields `undefined` there. -/
def instrAspiring : String :=
  "You are an entrepreneurship AI mentor and people can ask you suggestions and instructions to how to start or implement their business idea in real time. You have to provide them the step by step procedures to implement their business and helps them to become an entrepreneur.\n    \n    Focus on:\n    - Step-by-step implementation procedures\n    - Practical and actionable advice\n    - Legal requirements and compliance\n    - Market validation strategies\n    - Startup fundamentals and best practices\n    - Resource allocation and budgeting\n    - Timeline planning and milestones\n    \n    Always provide detailed, structured responses with clear action items."

/-- The `existing` member of the `instructions` object. -/
def instrExisting : String :=
  "You are a business growth strategist and digital transformation expert.\n    Help existing business owners scale, automate, and digitally transform their businesses.\n    Provide suggestions on marketing strategies, technology adoption, operational efficiency, and funding options.\n    Focus on growth tactics, competitive positioning, and sustainable business expansion.\n    \n    Always provide step-by-step guidance for implementation."

/-- The `general` member of the `instructions` object. -/
def instrGeneral : String :=
  "You are an entrepreneurship AI mentor and people can ask you suggestions and instructions to how to start or implement their business idea in real time. You have to provide them the step by step procedures to implement their business and helps them to become an entrepreneur."

/-- The `instructions` object of `server.js` lines 26-48 as a lookup. -/
def instructions : String → Option String
  | "aspiring" => some instrAspiring
  | "existing" => some instrExisting
  | "general" => some instrGeneral
  | _ => none

/-- `validUserTypes` (`server.js` line 64). -/
def validUserTypes : List String := ["aspiring", "existing", "general"]

/-- `selectedUserType` (`server.js` line 65): the destructuring default
`'general'` for an absent field, then silent coercion of any value outside
`validUserTypes` to `'general'`. -/
def selectUserType (u : Option String) : String :=
  let userType := u.getD "general"
  if userType ∈ validUserTypes then userType else "general"

/-- The session key computed by the chat route (`server.js` line 68):
the template literal with the coerced user type and the
destructuring-defaulted session id. -/
def chatSessionKey (u : Option String) (sid : Option String) : String :=
  selectUserType u ++ "_" ++ sid.getD "default"

/-- The session key computed by the delete route (`server.js`
lines 157-159): the raw `userType` query value, defaulted to `'aspiring'`
when absent, with no coercion to `validUserTypes`. -/
def deleteSessionKey (u : Option String) (sid : String) : String :=
  u.getD "aspiring" ++ "_" ++ sid

/-- Character-list prefix test (auxiliary for the substring test). -/
def hasPrefixChars : List Char → List Char → Bool
  | [], _ => true
  | _ :: _, [] => false
  | a :: as, b :: bs => a == b && hasPrefixChars as bs

/-- Character-list substring test (auxiliary for `strIncludes`). -/
def hasSubChars (need : List Char) : List Char → Bool
  | [] => hasPrefixChars need []
  | b :: bs => hasPrefixChars need (b :: bs) || hasSubChars need bs

/-- JavaScript `String.prototype.includes`, used by the error classifier
(`server.js` lines 132, 135). -/
def strIncludes (s sub : String) : Bool :=
  hasSubChars sub.data s.data

/-- Status code chosen by the catch block of the chat route (`server.js`
lines 126-138): exact-match timeout first, then the `API key` substring,
then the `quota` substring, otherwise the generic 500. -/
def classifyStatus (emsg : String) : Nat :=
  if emsg = "Request timeout" then 408
  else if strIncludes emsg "API key" then 401
  else if strIncludes emsg "quota" then 429
  else 500

/-- External error message chosen by the same catch block. -/
def classifyMessage (emsg : String) : String :=
  if emsg = "Request timeout" then "Request timed out. Please try again."
  else if strIncludes emsg "API key" then "Invalid API configuration"
  else if strIncludes emsg "quota" then "API quota exceeded. Please try again later."
  else "Failed to process chat message"

/-- Outcome of the handle-creation step (`genAI.getGenerativeModel` and
`model.startChat`, `server.js` lines 73-86): success, or a thrown
`modelError` carrying a message. -/
inductive InitResult where
  | ok
  | err (msg : String)
deriving DecidableEq

/-- Outcome observed by `await Promise.race([chatPromise, timeoutPromise])`
followed by `result.response` and `response.text()` (`server.js`
lines 101-109): a reply text, or a rejection carrying an error message
(the 30-second timeout rejects with the message `Request timeout`). -/
inductive SendResult where
  | ok (text : String)
  | err (msg : String)
deriving DecidableEq

/-- The JSON body of a `POST /api/chat` request (`server.js` line 53);
`none` stands for an absent field, triggering the destructuring defaults. -/
structure ChatRequestBody where
  message : Option JsonVal
  userType : Option String
  sessionId : Option String
deriving DecidableEq

/-- An HTTP response of the chat route: status code plus the JSON fields
the route can emit; `none` stands for an absent field. -/
structure ChatResponse where
  status : Nat
  error : Option String
  details : Option String
  reply : Option String
  userType : Option String
  sessionId : Option String
  success : Bool
  timestamp : Option String
deriving DecidableEq

/-- The JavaScript whitespace set recognised by `String.prototype.trim`
(ECMAScript WhiteSpace and LineTerminator code points). -/
def jsWhitespace (c : Char) : Bool :=
  c == ' ' || c == '\t' || c == '\n' || c == '\r' ||
  c.val == 0x0B || c.val == 0x0C || c.val == 0xA0 || c.val == 0x1680 ||
  (0x2000 ≤ c.val && c.val ≤ 0x200A) || c.val == 0x2028 || c.val == 0x2029 ||
  c.val == 0x202F || c.val == 0x205F || c.val == 0x3000 || c.val == 0xFEFF

/-- Drop leading whitespace characters (auxiliary for `jsTrim`). -/
def dropLeadingWs : List Char → List Char
  | [] => []
  | c :: cs => if jsWhitespace c then dropLeadingWs cs else c :: cs

/-- JavaScript `String.prototype.trim`: removes leading and trailing
whitespace (`message.trim()` on line 56 and 105, `reply.trim()` on
line 115 of `server.js`). -/
def jsTrim (s : String) : String :=
  String.mk (List.reverse (dropLeadingWs (List.reverse (dropLeadingWs s.data))))

/-- Input validation of `server.js` lines 56-61
(`!message || typeof message !== 'string' || message.trim().length === 0`):
returns the message string when it passes, `none` when the request must be
rejected (absent, `null`, not a string, or empty after trimming; the empty
string is also falsy). -/
def messageValid : Option JsonVal → Option String
  | some (JsonVal.str s) => if jsTrim s = "" then none else some s
  | _ => none

/-- The 400 response of `server.js` lines 57-60. -/
def validationErrorResponse : ChatResponse :=
  { status := 400
    error := some "Message is required and must be a non-empty string"
    details := none, reply := none, userType := none, sessionId := none
    success := false, timestamp := none }

/-- The 500 response of the inner catch for handle-creation failure
(`server.js` lines 92-96); its `details` string is a fixed literal,
emitted in every configuration. -/
def modelInitFailureResponse : ChatResponse :=
  { status := 500
    error := some "Failed to initialize AI model"
    details := some "Please check API key and model configuration"
    reply := none, userType := none, sessionId := none
    success := false, timestamp := none }

/-- The handle created for a category by `server.js` lines 73-86: the
`gemini-1.5-flash` model bound to the category's system instruction, an
empty history, and the fixed generation parameters. -/
def newChat (selectedUserType : String) : Chat :=
  { modelName := "gemini-1.5-flash"
    systemInstruction := (instructions selectedUserType).getD ""
    history := []
    generationConfig :=
      { maxOutputTokens := 1500, temperature := 0.7, topP := 0.8, topK := 40 } }

/-- The lookup-or-create segment of the chat route (`server.js`
lines 69-98).  This segment contains no `await`, so under the event loop it
runs without interleaving; it returns the handle to use together with the
updated table, or `none` when handle creation failed (in which case the
table is returned unchanged by the caller). -/
def lookupOrCreate (init : InitResult) (sessionKey selectedUserType : String)
    (t : SessionTable) : Option (Chat × SessionTable) :=
  match tableGet t sessionKey with
  | some chat => some (chat, t)
  | none =>
    match init with
    | InitResult.err _ => none
    | InitResult.ok =>
      let chat := newChat selectedUserType
      some (chat, tableSet t sessionKey chat)

/-- The response assembled after the send step (`server.js` lines 100-146):
on success the 200 body with the trimmed reply; on a rejection, the catch
block's classified status and message, with `details` carrying the internal
error message only when `NODE_ENV === 'development'`. -/
def sendStep (nodeEnv : Option String) (now : String) (send : SendResult)
    (selectedUserType sessionId : String) : ChatResponse :=
  match send with
  | SendResult.ok text =>
    { status := 200, error := none, details := none
      reply := some (jsTrim text)
      userType := some selectedUserType, sessionId := some sessionId
      success := true, timestamp := some now }
  | SendResult.err emsg =>
    { status := classifyStatus emsg
      error := some (classifyMessage emsg)
      details := if nodeEnv = some "development" then some emsg else none
      reply := none, userType := none, sessionId := none
      success := false, timestamp := some now }

/-- The `POST /api/chat` handler of `server.js` lines 51-147, as a pure
function of the configuration (`NODE_ENV`), the current timestamp string,
the upstream oracles, the request body and the session table.  Returns the
response and the table after the request. -/
def handleChat (nodeEnv : Option String) (now : String) (init : InitResult)
    (send : SendResult) (body : ChatRequestBody) (t : SessionTable) :
    ChatResponse × SessionTable :=
  match messageValid body.message with
  | none => (validationErrorResponse, t)
  | some _ =>
    let selectedUserType := selectUserType body.userType
    let sessionId := (body.sessionId).getD "default"
    let sessionKey := chatSessionKey body.userType body.sessionId
    match lookupOrCreate init sessionKey selectedUserType t with
    | none => (modelInitFailureResponse, t)
    | some (_, t') => (sendStep nodeEnv now send selectedUserType sessionId, t')

/-- The response body of `DELETE /api/chat/:sessionId` (`server.js`
line 162): `res.json` answers with status 200 and the body contains only
the `message` property, so `sessionId` is modelled as an optional field
that the handler never sets. -/
structure DeleteResponse where
  status : Nat
  message : String
  sessionId : Option String
deriving DecidableEq

/-- The `DELETE /api/chat/:sessionId` handler of `server.js`
lines 155-163: computes the key from the raw `userType` query value
(default `'aspiring'`), deletes it, and always answers 200 with the fixed
message. -/
def handleDelete (sessionId : String) (userTypeQ : Option String)
    (t : SessionTable) : DeleteResponse × SessionTable :=
  ({ status := 200, message := "Chat session cleared", sessionId := none },
    tableDelete t (deleteSessionKey userTypeQ sessionId))

/-- The response of the `GET /api/sessions` route. -/
structure SessionsResponse where
  activeSessions : Nat
  sessions : List String
  timestamp : String
deriving DecidableEq

/-- Modelled from the spec: the `GET /api/sessions` route
(`listActiveSessions`) is implemented in the repository's FastAPI server,
which is not among the provided source files (only its documentation and
client are); per the spec it "returns a snapshot (point-in-time copy) of
all currently stored ConversationKeys, formatted as `category_sessionId`
strings, plus a count", i.e. `{activeSessions: count, sessions: [keys],
timestamp}`, and must not expose conversation content. -/
def listActiveSessions (now : String) (t : SessionTable) : SessionsResponse :=
  { activeSessions := (tableKeys t).length
    sessions := tableKeys t
    timestamp := now }

/-- Table effect of a sequence of first-come-first-served executions of
the chat route's table phase: under the event loop, each request's
lookup-or-create segment (`server.js` lines 69-98) contains no `await` and
therefore runs atomically; the only suspension point is the upstream send,
which never touches the table.  A schedule of N concurrent requests with
the same body is therefore some sequential order of their table updates. -/
def runChatCalls (nodeEnv : Option String) (now : String)
    (body : ChatRequestBody) (sends : List SendResult)
    (t : SessionTable) : SessionTable :=
  sends.foldl (fun acc s => (handleChat nodeEnv now InitResult.ok s body acc).2) t

/-- A key that is absent from the table has no matching entry. -/
theorem find?_eq_none_of_tableGet_none (t : SessionTable) (k : String)
    (h : tableGet t k = none) : t.find? (fun p => p.1 == k) = none := by
  simpa [tableGet, Option.map_eq_none'] using h

/-- Storing a handle under an absent key makes it retrievable. -/
theorem tableGet_set_absent (t : SessionTable) (k : String) (v : Chat)
    (h : tableGet t k = none) : tableGet (tableSet t k v) k = some v := by
  have hf := find?_eq_none_of_tableGet_none t k h
  simp [tableSet, hf, tableGet, List.find?_append]

/-- An absent key has no entries at all. -/
theorem countKey_eq_zero (t : SessionTable) (k : String)
    (h : tableGet t k = none) : countKey t k = 0 := by
  have hf := find?_eq_none_of_tableGet_none t k h
  have hall := List.find?_eq_none.mp hf
  simp only [countKey, List.length_eq_zero, List.filter_eq_nil_iff]
  exact hall

/-- Storing a handle under an absent key yields exactly one entry. -/
theorem countKey_set_absent (t : SessionTable) (k : String) (v : Chat)
    (h : tableGet t k = none) : countKey (tableSet t k v) k = 1 := by
  have hf := find?_eq_none_of_tableGet_none t k h
  have h0 : (t.filter fun p => p.1 == k) = [] :=
    List.length_eq_zero.mp (countKey_eq_zero t k h)
  simp [tableSet, hf, countKey, List.filter_append, h0]

/-- Deleting a key removes every entry for it. -/
theorem tableGet_delete (t : SessionTable) (k : String) :
    tableGet (tableDelete t k) k = none := by
  induction t with
  | nil => rfl
  | cons p ps ih =>
    by_cases h : p.1 == k
    · simp only [tableDelete, List.filter_cons] at ih ⊢
      simp only [h, Bool.not_true, Bool.false_eq_true, if_false]
      exact ih
    · simp only [tableDelete, List.filter_cons] at ih ⊢
      simp only [h, Bool.not_false, if_true, Bool.false_eq_true]
      simpa [tableGet, List.find?_cons, h] using ih

/-- Deleting an absent key is a no-op. -/
theorem tableDelete_absent (t : SessionTable) (k : String)
    (h : tableGet t k = none) : tableDelete t k = t := by
  have hall := List.find?_eq_none.mp (find?_eq_none_of_tableGet_none t k h)
  simp only [tableDelete, List.filter_eq_self]
  intro p hp
  simpa using hall p hp

/-- A message that passes validation is returned by the validator. -/
theorem messageValid_str (msg : String) (h : jsTrim msg ≠ "") :
    messageValid (some (JsonVal.str msg)) = some msg := by
  simp [messageValid, h]

/-- A category in `validUserTypes` is kept by the coercion. -/
theorem selectUserType_of_mem (c : String) (hc : c ∈ validUserTypes) :
    selectUserType (some c) = c := by
  simp [selectUserType, hc]

/-- For a valid category the created handle is bound to that category's
system instruction. -/
theorem instructions_of_mem (c : String) (hc : c ∈ validUserTypes) :
    instructions c = some ((newChat c).systemInstruction) := by
  simp only [validUserTypes, List.mem_cons, List.mem_singleton,
    List.not_mem_nil, or_false] at hc
  rcases hc with h | h | h <;> subst h <;> rfl

/-- Rejected request: the handler answers 400 and leaves the table as is,
whatever the oracles would have done. -/
theorem handleChat_invalid (nodeEnv : Option String) (now : String)
    (init : InitResult) (send : SendResult) (body : ChatRequestBody)
    (t : SessionTable) (hm : messageValid body.message = none) :
    handleChat nodeEnv now init send body t = (validationErrorResponse, t) := by
  simp [handleChat, hm]

/-- Existing handle: the handler answers from the send step and leaves the
table unchanged, whatever the init oracle is. -/
theorem handleChat_present (nodeEnv : Option String) (now : String)
    (init : InitResult) (send : SendResult) (body : ChatRequestBody)
    (t : SessionTable) (msg : String) (ch : Chat)
    (hm : messageValid body.message = some msg)
    (hch : tableGet t (chatSessionKey body.userType body.sessionId) = some ch) :
    handleChat nodeEnv now init send body t =
      (sendStep nodeEnv now send (selectUserType body.userType)
        ((body.sessionId).getD "default"), t) := by
  simp [handleChat, hm, lookupOrCreate, hch]

/-- Absent handle, creation succeeds: the handler stores the new handle
and answers from the send step. -/
theorem handleChat_absent_ok (nodeEnv : Option String) (now : String)
    (send : SendResult) (body : ChatRequestBody) (t : SessionTable)
    (msg : String)
    (hm : messageValid body.message = some msg)
    (h0 : tableGet t (chatSessionKey body.userType body.sessionId) = none) :
    handleChat nodeEnv now InitResult.ok send body t =
      (sendStep nodeEnv now send (selectUserType body.userType)
        ((body.sessionId).getD "default"),
       tableSet t (chatSessionKey body.userType body.sessionId)
         (newChat (selectUserType body.userType))) := by
  simp [handleChat, hm, lookupOrCreate, h0]

/-- Absent handle, creation fails: the handler answers the fixed 500
response and leaves the table as is. -/
theorem handleChat_absent_err (nodeEnv : Option String) (now : String)
    (e : String) (send : SendResult) (body : ChatRequestBody)
    (t : SessionTable) (msg : String)
    (hm : messageValid body.message = some msg)
    (h0 : tableGet t (chatSessionKey body.userType body.sessionId) = none) :
    handleChat nodeEnv now (InitResult.err e) send body t =
      (modelInitFailureResponse, t) := by
  simp [handleChat, hm, lookupOrCreate, h0]

/-- Once the key is stored, any sequence of further calls with the same
body leaves the table untouched. -/
theorem runChatCalls_present (nodeEnv : Option String) (now : String)
    (body : ChatRequestBody) (sends : List SendResult) (t : SessionTable)
    (msg : String) (ch : Chat)
    (hm : messageValid body.message = some msg)
    (hch : tableGet t (chatSessionKey body.userType body.sessionId) = some ch) :
    runChatCalls nodeEnv now body sends t = t := by
  induction sends with
  | nil => rfl
  | cons s ss ih =>
    simp only [runChatCalls, List.foldl_cons]
    rw [handleChat_present nodeEnv now InitResult.ok s body t msg ch hm hch]
    exact ih

/-- Claim C1: `listActiveSessions` (`GET /api/sessions`) returns a
point-in-time snapshot of all currently stored ConversationKeys together
with their count, and depends only on the stored keys, so it exposes no
conversation content. -/
theorem listActiveSessions_snapshot (now : String) (t t2 : SessionTable) :
    (listActiveSessions now t).sessions = tableKeys t
    ∧ (listActiveSessions now t).activeSessions = (tableKeys t).length
    ∧ (tableKeys t2 = tableKeys t →
        listActiveSessions now t2 = listActiveSessions now t) := by
  refine ⟨rfl, rfl, fun h => ?_⟩
  simp [listActiveSessions, h]

/-- Claim C1 witness: two tables with the same keys but different handle
contents produce the same sessions listing. -/
theorem listActiveSessions_snapshot_witness :
    listActiveSessions "ts" [("aspiring_s1", newChat "general")]
      = listActiveSessions "ts" [("aspiring_s1", newChat "aspiring")] :=
  (listActiveSessions_snapshot "ts" [("aspiring_s1", newChat "aspiring")]
    [("aspiring_s1", newChat "general")]).2.2 rfl

/-- Claim C2: the first `submitMessage` call for a valid (category,
sessionId) pair creates a handle bound to the category's system
instruction with generation parameters maxOutputTokens 1500, temperature
0.7, topP 0.8, topK 40, and stores it under the key; a subsequent call
with the same pair (whatever its oracles) leaves the table unchanged, and
the table holds exactly one entry for the key after both calls. -/
theorem submitMessage_creates_then_reuses
    (c sid msg now : String) (nodeEnv : Option String)
    (send1 send2 : SendResult) (init2 : InitResult) (t0 : SessionTable)
    (hc : c ∈ validUserTypes) (hmsg : jsTrim msg ≠ "")
    (h0 : tableGet t0 (c ++ "_" ++ sid) = none) :
    tableGet ((handleChat nodeEnv now InitResult.ok send1
        ⟨some (JsonVal.str msg), some c, some sid⟩ t0).2) (c ++ "_" ++ sid)
      = some (newChat c)
    ∧ instructions c = some ((newChat c).systemInstruction)
    ∧ (newChat c).generationConfig.maxOutputTokens = 1500
    ∧ (newChat c).generationConfig.temperature = 0.7
    ∧ (newChat c).generationConfig.topP = 0.8
    ∧ (newChat c).generationConfig.topK = 40
    ∧ (handleChat nodeEnv now init2 send2 ⟨some (JsonVal.str msg), some c, some sid⟩
        ((handleChat nodeEnv now InitResult.ok send1
          ⟨some (JsonVal.str msg), some c, some sid⟩ t0).2)).2
      = (handleChat nodeEnv now InitResult.ok send1
          ⟨some (JsonVal.str msg), some c, some sid⟩ t0).2
    ∧ countKey ((handleChat nodeEnv now init2 send2
        ⟨some (JsonVal.str msg), some c, some sid⟩
        ((handleChat nodeEnv now InitResult.ok send1
          ⟨some (JsonVal.str msg), some c, some sid⟩ t0).2)).2) (c ++ "_" ++ sid)
      = 1 := by
  have hm : messageValid (some (JsonVal.str msg)) = some msg :=
    messageValid_str msg hmsg
  have hkey : chatSessionKey (some c) (some sid) = c ++ "_" ++ sid := by
    simp [chatSessionKey, selectUserType_of_mem c hc]
  have h0' : tableGet t0 (chatSessionKey (some c) (some sid)) = none := by
    rw [hkey]; exact h0
  have hstep := handleChat_absent_ok nodeEnv now send1
    ⟨some (JsonVal.str msg), some c, some sid⟩ t0 msg hm h0'
  have ht1 : (handleChat nodeEnv now InitResult.ok send1
      ⟨some (JsonVal.str msg), some c, some sid⟩ t0).2
      = tableSet t0 (c ++ "_" ++ sid) (newChat c) := by
    rw [hstep]
    simp [hkey, selectUserType_of_mem c hc]
  have hget : tableGet (tableSet t0 (c ++ "_" ++ sid) (newChat c))
      (c ++ "_" ++ sid) = some (newChat c) :=
    tableGet_set_absent t0 (c ++ "_" ++ sid) (newChat c) h0
  have hget' : tableGet ((handleChat nodeEnv now InitResult.ok send1
      ⟨some (JsonVal.str msg), some c, some sid⟩ t0).2)
      (chatSessionKey (some c) (some sid)) = some (newChat c) := by
    rw [ht1, hkey]; exact hget
  have hsecond := handleChat_present nodeEnv now init2 send2
    ⟨some (JsonVal.str msg), some c, some sid⟩
    ((handleChat nodeEnv now InitResult.ok send1
      ⟨some (JsonVal.str msg), some c, some sid⟩ t0).2) msg (newChat c) hm hget'
  have ht2 : (handleChat nodeEnv now init2 send2
      ⟨some (JsonVal.str msg), some c, some sid⟩
      ((handleChat nodeEnv now InitResult.ok send1
        ⟨some (JsonVal.str msg), some c, some sid⟩ t0).2)).2
      = (handleChat nodeEnv now InitResult.ok send1
        ⟨some (JsonVal.str msg), some c, some sid⟩ t0).2 := by
    rw [hsecond]
  refine ⟨?_, instructions_of_mem c hc, rfl, rfl, rfl, rfl, ht2, ?_⟩
  · rw [ht1]; exact hget
  · rw [ht2, ht1]
    exact countKey_set_absent t0 (c ++ "_" ++ sid) (newChat c) h0

/-- Claim C2 witness: concrete run of the two calls for
(`aspiring`, `s1`) from the empty table. -/
theorem submitMessage_creates_then_reuses_witness :
    tableGet ((handleChat none "ts" InitResult.ok (SendResult.ok "hi")
        ⟨some (JsonVal.str "hello"), some "aspiring", some "s1"⟩ []).2)
        ("aspiring" ++ "_" ++ "s1")
      = some (newChat "aspiring") :=
  (submitMessage_creates_then_reuses "aspiring" "s1" "hello" "ts" none
    (SendResult.ok "hi") (SendResult.ok "and funding?") InitResult.ok []
    (by decide) (by decide) rfl).1

/-- Claim C3: a request whose message is absent, not a string, or empty
after trimming is answered with the fixed 400 validation response,
independently of the upstream oracles (the collaborator is never
consulted), and the table is left unchanged. -/
theorem invalid_message_rejected
    (nodeEnv : Option String) (now : String) (init : InitResult)
    (send : SendResult) (body : ChatRequestBody) (t : SessionTable)
    (h : body.message = none
      ∨ (∀ s : String, body.message ≠ some (JsonVal.str s))
      ∨ (∃ s : String, body.message = some (JsonVal.str s) ∧ jsTrim s = "")) :
    handleChat nodeEnv now init send body t = (validationErrorResponse, t)
    ∧ validationErrorResponse.status = 400
    ∧ validationErrorResponse.success = false := by
  have hm : messageValid body.message = none := by
    rcases h with h | h | ⟨s, hs, hts⟩
    · simp [h, messageValid]
    · cases hb : body.message with
      | none => simp [messageValid]
      | some v =>
        cases v with
        | null => simp [messageValid]
        | str s => exact absurd hb (h s)
        | num n => simp [messageValid]
        | bool b => simp [messageValid]
    · simp [hs, messageValid, hts]
  exact ⟨handleChat_invalid nodeEnv now init send body t hm, rfl, rfl⟩

/-- Claim C3 witness: an absent message is rejected with 400 and no entry
is created. -/
theorem invalid_message_rejected_witness :
    handleChat none "ts" InitResult.ok (SendResult.ok "r")
        ⟨none, some "aspiring", some "s1"⟩ []
      = (validationErrorResponse, []) :=
  (invalid_message_rejected none "ts" InitResult.ok (SendResult.ok "r")
    ⟨none, some "aspiring", some "s1"⟩ [] (Or.inl rfl)).1

/-- Claim C4: a send failure is classified by the message content into
exactly one of the four distinct statuses: 408 exactly for the timeout
message, 401 for a message containing `API key`, 429 for a message
containing `quota` (and not `API key`), 500 for everything else; the
response status of the chat route on a send failure is this
classification. -/
theorem sendFailure_classified
    (nodeEnv : Option String) (now msg c sid emsg : String)
    (t : SessionTable) (hmsg : jsTrim msg ≠ "") :
    ((handleChat nodeEnv now InitResult.ok (SendResult.err emsg)
        ⟨some (JsonVal.str msg), some c, some sid⟩ t).1).status
      = classifyStatus emsg
    ∧ ((handleChat nodeEnv now InitResult.ok (SendResult.err emsg)
        ⟨some (JsonVal.str msg), some c, some sid⟩ t).1).success = false
    ∧ (classifyStatus emsg = 408 ∨ classifyStatus emsg = 401
        ∨ classifyStatus emsg = 429 ∨ classifyStatus emsg = 500)
    ∧ (classifyStatus emsg = 408 ↔ emsg = "Request timeout")
    ∧ (classifyStatus emsg = 401 ↔
        (emsg ≠ "Request timeout" ∧ strIncludes emsg "API key" = true))
    ∧ (classifyStatus emsg = 429 ↔
        (emsg ≠ "Request timeout" ∧ strIncludes emsg "API key" = false
          ∧ strIncludes emsg "quota" = true))
    ∧ (classifyStatus emsg = 500 ↔
        (emsg ≠ "Request timeout" ∧ strIncludes emsg "API key" = false
          ∧ strIncludes emsg "quota" = false)) := by
  have hm : messageValid (some (JsonVal.str msg)) = some msg :=
    messageValid_str msg hmsg
  have hresp : ((handleChat nodeEnv now InitResult.ok (SendResult.err emsg)
      ⟨some (JsonVal.str msg), some c, some sid⟩ t).1)
      = sendStep nodeEnv now (SendResult.err emsg)
          (selectUserType (some c)) ((some sid).getD "default") := by
    rcases hch : tableGet t (chatSessionKey (some c) (some sid)) with _ | ch
    · rw [handleChat_absent_ok nodeEnv now (SendResult.err emsg)
        ⟨some (JsonVal.str msg), some c, some sid⟩ t msg hm hch]
    · rw [handleChat_present nodeEnv now InitResult.ok (SendResult.err emsg)
        ⟨some (JsonVal.str msg), some c, some sid⟩ t msg ch hm hch]
  refine ⟨by rw [hresp]; rfl, by rw [hresp]; rfl, ?_, ?_, ?_, ?_, ?_⟩ <;>
    unfold classifyStatus <;> split_ifs <;> simp_all

/-- Claim C4 witness: a quota-mentioning failure during a stored session is
classified, and the classification sends the timeout message to 408. -/
theorem sendFailure_classified_witness :
    ((handleChat none "ts" InitResult.ok
        (SendResult.err "You exceeded your current quota")
        ⟨some (JsonVal.str "hello"), some "existing", some "s2"⟩ []).1).status
      = classifyStatus "You exceeded your current quota" :=
  (sendFailure_classified none "ts" "hello" "existing" "s2"
    "You exceeded your current quota" [] (by decide)).1

/-- Claim C5: a send failure does not evict the table entry for the
request's ConversationKey: an existing handle is still stored unchanged
afterwards, and a handle created during the failing call is stored
afterwards, available for a later retry. -/
theorem sendFailure_retains_entry
    (nodeEnv : Option String) (now msg c sid emsg : String)
    (init : InitResult) (t : SessionTable) (hmsg : jsTrim msg ≠ "") :
    (∀ ch : Chat,
      tableGet t (chatSessionKey (some c) (some sid)) = some ch →
        (handleChat nodeEnv now init (SendResult.err emsg)
            ⟨some (JsonVal.str msg), some c, some sid⟩ t).2 = t
        ∧ tableGet ((handleChat nodeEnv now init (SendResult.err emsg)
            ⟨some (JsonVal.str msg), some c, some sid⟩ t).2)
            (chatSessionKey (some c) (some sid)) = some ch)
    ∧ (tableGet t (chatSessionKey (some c) (some sid)) = none →
        tableGet ((handleChat nodeEnv now InitResult.ok (SendResult.err emsg)
            ⟨some (JsonVal.str msg), some c, some sid⟩ t).2)
            (chatSessionKey (some c) (some sid))
          = some (newChat (selectUserType (some c)))) := by
  have hm : messageValid (some (JsonVal.str msg)) = some msg :=
    messageValid_str msg hmsg
  constructor
  · intro ch hch
    have hstep := handleChat_present nodeEnv now init (SendResult.err emsg)
      ⟨some (JsonVal.str msg), some c, some sid⟩ t msg ch hm hch
    rw [hstep]
    exact ⟨rfl, hch⟩
  · intro h0
    have hstep := handleChat_absent_ok nodeEnv now (SendResult.err emsg)
      ⟨some (JsonVal.str msg), some c, some sid⟩ t msg hm h0
    rw [hstep]
    exact tableGet_set_absent t (chatSessionKey (some c) (some sid))
      (newChat (selectUserType (some c))) h0

/-- Claim C5 witness: the handle created by a call whose send fails is
still stored afterwards. -/
theorem sendFailure_retains_entry_witness :
    tableGet ((handleChat none "ts" InitResult.ok (SendResult.err "Request timeout")
        ⟨some (JsonVal.str "hello"), some "aspiring", some "s1"⟩ []).2)
        (chatSessionKey (some "aspiring") (some "s1"))
      = some (newChat (selectUserType (some "aspiring"))) :=
  (sendFailure_retains_entry none "ts" "hello" "aspiring" "s1"
    "Request timeout" InitResult.ok [] (by decide)).2 rfl

/-- Claim C6: a handle-creation failure is answered with the fixed 500
`Failed to initialize AI model` response and the table is left exactly as
it was: no entry is inserted for the key. -/
theorem initFailure_table_clean
    (nodeEnv : Option String) (now msg c sid e : String)
    (send : SendResult) (t : SessionTable)
    (hmsg : jsTrim msg ≠ "")
    (h0 : tableGet t (chatSessionKey (some c) (some sid)) = none) :
    handleChat nodeEnv now (InitResult.err e) send
        ⟨some (JsonVal.str msg), some c, some sid⟩ t
      = (modelInitFailureResponse, t)
    ∧ modelInitFailureResponse.status = 500
    ∧ modelInitFailureResponse.error = some "Failed to initialize AI model"
    ∧ tableGet ((handleChat nodeEnv now (InitResult.err e) send
        ⟨some (JsonVal.str msg), some c, some sid⟩ t).2)
        (chatSessionKey (some c) (some sid)) = none := by
  have hm : messageValid (some (JsonVal.str msg)) = some msg :=
    messageValid_str msg hmsg
  have hstep := handleChat_absent_err nodeEnv now e send
    ⟨some (JsonVal.str msg), some c, some sid⟩ t msg hm h0
  refine ⟨hstep, rfl, rfl, ?_⟩
  rw [hstep]
  exact h0

/-- Claim C6 witness: a concrete creation failure answers 500 and leaves
the empty table empty. -/
theorem initFailure_table_clean_witness :
    handleChat none "ts" (InitResult.err "model rejected") (SendResult.ok "r")
        ⟨some (JsonVal.str "hello"), some "general", some "s1"⟩ []
      = (modelInitFailureResponse, []) :=
  (initFailure_table_clean none "ts" "hello" "general" "s1" "model rejected"
    (SendResult.ok "r") [] (by decide) rfl).1

/-- Claim C7 counterexample: the delete route's response body carries only
the fixed message; it has no `sessionId` member, so the claimed
`{message, sessionId}` body shape fails at sessionId `s1`. -/
theorem clearSession_response_lacks_sessionId :
    (handleDelete "s1" (some "aspiring") []).1
      = { status := 200, message := "Chat session cleared", sessionId := none }
    ∧ (handleDelete "s1" (some "aspiring") []).1.sessionId ≠ some "s1" := by
  exact ⟨rfl, by simp [handleDelete]⟩

/-- Claim C7 (amended): every delete request succeeds with status 200 and
the body `{message}` (no `sessionId` field); the entry for the computed
key is removed when present, an absent key makes the call a no-op, and the
operation is idempotent. -/
theorem clearSession_idempotent (sid : String) (uq : Option String)
    (t : SessionTable) :
    (handleDelete sid uq t).1.status = 200
    ∧ (handleDelete sid uq t).1.message = "Chat session cleared"
    ∧ (handleDelete sid uq t).1.sessionId = none
    ∧ (handleDelete sid uq t).2 = tableDelete t (deleteSessionKey uq sid)
    ∧ tableGet ((handleDelete sid uq t).2) (deleteSessionKey uq sid) = none
    ∧ (tableGet t (deleteSessionKey uq sid) = none →
        (handleDelete sid uq t).2 = t)
    ∧ handleDelete sid uq ((handleDelete sid uq t).2)
        = ((handleDelete sid uq t).1, (handleDelete sid uq t).2) := by
  refine ⟨rfl, rfl, rfl, rfl, tableGet_delete t (deleteSessionKey uq sid),
    fun h => tableDelete_absent t (deleteSessionKey uq sid) h, ?_⟩
  have h2 := tableGet_delete t (deleteSessionKey uq sid)
  have := tableDelete_absent (tableDelete t (deleteSessionKey uq sid))
    (deleteSessionKey uq sid) h2
  simp [handleDelete, this]

/-- Claim C7 witness: deleting a stored key removes it, and deleting it
again is the same no-op success. -/
theorem clearSession_idempotent_witness :
    tableGet ((handleDelete "s1" (some "aspiring")
        [("aspiring" ++ "_" ++ "s1", newChat "aspiring")]).2)
        (deleteSessionKey (some "aspiring") "s1") = none :=
  (clearSession_idempotent "s1" (some "aspiring")
    [("aspiring" ++ "_" ++ "s1", newChat "aspiring")]).2.2.2.2.1

/-- Claim C8 counterexample: in the production configuration a
handle-creation failure still answers with a `details` field (the fixed
hint string), so the `details` field is not suppressed in every
non-development configuration. -/
theorem production_initFailure_details_present :
    ((handleChat (some "production") "ts" (InitResult.err "boom")
        (SendResult.ok "r")
        ⟨some (JsonVal.str "hello"), some "aspiring", some "s1"⟩ []).1).details
      = some "Please check API key and model configuration" := by
  rfl

/-- Claim C8 (amended): the internal error message reaches the `details`
field only when `NODE_ENV` is exactly `development` (send failures
suppress it in every other configuration), while the handle-creation
failure response carries a fixed static `details` string in every
configuration, independent of the internal creation error. -/
theorem details_disclosure_policy
    (nodeEnv : Option String) (now msg c sid emsg e e2 : String)
    (t : SessionTable) (hmsg : jsTrim msg ≠ "") :
    (nodeEnv ≠ some "development" →
      ((handleChat nodeEnv now InitResult.ok (SendResult.err emsg)
          ⟨some (JsonVal.str msg), some c, some sid⟩ t).1).details = none)
    ∧ (nodeEnv = some "development" →
      ((handleChat nodeEnv now InitResult.ok (SendResult.err emsg)
          ⟨some (JsonVal.str msg), some c, some sid⟩ t).1).details = some emsg)
    ∧ (handleChat nodeEnv now (InitResult.err e) (SendResult.ok "x")
          ⟨some (JsonVal.str msg), some c, some sid⟩ t
        = handleChat nodeEnv now (InitResult.err e2) (SendResult.ok "x")
          ⟨some (JsonVal.str msg), some c, some sid⟩ t)
    ∧ (tableGet t (chatSessionKey (some c) (some sid)) = none →
        ((handleChat nodeEnv now (InitResult.err e) (SendResult.ok "x")
            ⟨some (JsonVal.str msg), some c, some sid⟩ t).1).details
          = some "Please check API key and model configuration") := by
  have hm : messageValid (some (JsonVal.str msg)) = some msg :=
    messageValid_str msg hmsg
  have hresp : ((handleChat nodeEnv now InitResult.ok (SendResult.err emsg)
      ⟨some (JsonVal.str msg), some c, some sid⟩ t).1)
      = sendStep nodeEnv now (SendResult.err emsg)
          (selectUserType (some c)) ((some sid).getD "default") := by
    rcases hch : tableGet t (chatSessionKey (some c) (some sid)) with _ | ch
    · rw [handleChat_absent_ok nodeEnv now (SendResult.err emsg)
        ⟨some (JsonVal.str msg), some c, some sid⟩ t msg hm hch]
    · rw [handleChat_present nodeEnv now InitResult.ok (SendResult.err emsg)
        ⟨some (JsonVal.str msg), some c, some sid⟩ t msg ch hm hch]
  refine ⟨?_, ?_, ?_, ?_⟩
  · intro h
    rw [hresp]
    simp [sendStep, h]
  · intro h
    rw [hresp]
    simp [sendStep, h]
  · rcases hch : tableGet t (chatSessionKey (some c) (some sid)) with _ | ch
    · rw [handleChat_absent_err nodeEnv now e (SendResult.ok "x")
        ⟨some (JsonVal.str msg), some c, some sid⟩ t msg hm hch,
        handleChat_absent_err nodeEnv now e2 (SendResult.ok "x")
        ⟨some (JsonVal.str msg), some c, some sid⟩ t msg hm hch]
    · rw [handleChat_present nodeEnv now (InitResult.err e) (SendResult.ok "x")
        ⟨some (JsonVal.str msg), some c, some sid⟩ t msg ch hm hch,
        handleChat_present nodeEnv now (InitResult.err e2) (SendResult.ok "x")
        ⟨some (JsonVal.str msg), some c, some sid⟩ t msg ch hm hch]
  · intro h0
    rw [handleChat_absent_err nodeEnv now e (SendResult.ok "x")
      ⟨some (JsonVal.str msg), some c, some sid⟩ t msg hm h0]
    rfl

/-- Claim C8 (amended) witness: in the production configuration a send
failure carries no `details`. -/
theorem details_disclosure_policy_witness :
    ((handleChat (some "production") "ts" InitResult.ok
        (SendResult.err "internal secret")
        ⟨some (JsonVal.str "hello"), some "general", some "s1"⟩ []).1).details
      = none :=
  (details_disclosure_policy (some "production") "ts" "hello" "general" "s1"
    "internal secret" "e1" "e2" [] (by decide)).1 (by simp)

/-- Claim C9: the lookup-or-create segment of the chat route contains no
suspension point, so a schedule of N concurrent first-time calls for the
same unseen key is a sequence of its atomic table updates: whatever the
order and the individual send outcomes, exactly one handle is created and
stored for the key, and every call that finds the stored handle leaves the
table unchanged (reusing the winner's handle rather than overwriting
it). -/
theorem concurrent_create_once
    (nodeEnv : Option String) (now msg c sid : String)
    (sends : List SendResult) (t0 : SessionTable)
    (hc : c ∈ validUserTypes) (hmsg : jsTrim msg ≠ "")
    (h0 : tableGet t0 (c ++ "_" ++ sid) = none)
    (hn : sends ≠ []) :
    countKey (runChatCalls nodeEnv now
        ⟨some (JsonVal.str msg), some c, some sid⟩ sends t0) (c ++ "_" ++ sid)
      = 1
    ∧ tableGet (runChatCalls nodeEnv now
        ⟨some (JsonVal.str msg), some c, some sid⟩ sends t0) (c ++ "_" ++ sid)
      = some (newChat c)
    ∧ (∀ (s : SendResult) (t : SessionTable),
        tableGet t (c ++ "_" ++ sid) = some (newChat c) →
          (handleChat nodeEnv now InitResult.ok s
            ⟨some (JsonVal.str msg), some c, some sid⟩ t).2 = t) := by
  have hm : messageValid (some (JsonVal.str msg)) = some msg :=
    messageValid_str msg hmsg
  have hkey : chatSessionKey (some c) (some sid) = c ++ "_" ++ sid := by
    simp [chatSessionKey, selectUserType_of_mem c hc]
  have hreuse : ∀ (s : SendResult) (t : SessionTable),
      tableGet t (c ++ "_" ++ sid) = some (newChat c) →
        (handleChat nodeEnv now InitResult.ok s
          ⟨some (JsonVal.str msg), some c, some sid⟩ t).2 = t := by
    intro s t hch
    have hch' : tableGet t (chatSessionKey (some c) (some sid))
        = some (newChat c) := by rw [hkey]; exact hch
    rw [handleChat_present nodeEnv now InitResult.ok s
      ⟨some (JsonVal.str msg), some c, some sid⟩ t msg (newChat c) hm hch']
  rcases sends with _ | ⟨s, ss⟩
  · exact absurd rfl hn
  · have h0' : tableGet t0 (chatSessionKey (some c) (some sid)) = none := by
      rw [hkey]; exact h0
    have ht1 : (handleChat nodeEnv now InitResult.ok s
        ⟨some (JsonVal.str msg), some c, some sid⟩ t0).2
        = tableSet t0 (c ++ "_" ++ sid) (newChat c) := by
      rw [handleChat_absent_ok nodeEnv now s
        ⟨some (JsonVal.str msg), some c, some sid⟩ t0 msg hm h0']
      simp [hkey, selectUserType_of_mem c hc]
    have hget1 : tableGet (tableSet t0 (c ++ "_" ++ sid) (newChat c))
        (chatSessionKey (some c) (some sid)) = some (newChat c) := by
      rw [hkey]
      exact tableGet_set_absent t0 (c ++ "_" ++ sid) (newChat c) h0
    have hrest : runChatCalls nodeEnv now
        ⟨some (JsonVal.str msg), some c, some sid⟩ ss
        (tableSet t0 (c ++ "_" ++ sid) (newChat c))
        = tableSet t0 (c ++ "_" ++ sid) (newChat c) :=
      runChatCalls_present nodeEnv now
        ⟨some (JsonVal.str msg), some c, some sid⟩ ss
        (tableSet t0 (c ++ "_" ++ sid) (newChat c)) msg (newChat c) hm hget1
    have hall : runChatCalls nodeEnv now
        ⟨some (JsonVal.str msg), some c, some sid⟩ (s :: ss) t0
        = tableSet t0 (c ++ "_" ++ sid) (newChat c) := by
      simp only [runChatCalls, List.foldl_cons]
      rw [show (handleChat nodeEnv now InitResult.ok s
        ⟨some (JsonVal.str msg), some c, some sid⟩ t0).2
        = tableSet t0 (c ++ "_" ++ sid) (newChat c) from ht1]
      exact hrest
    refine ⟨?_, ?_, hreuse⟩
    · rw [hall]
      exact countKey_set_absent t0 (c ++ "_" ++ sid) (newChat c) h0
    · rw [hall]
      exact tableGet_set_absent t0 (c ++ "_" ++ sid) (newChat c) h0

/-- Claim C9 witness: three first-time calls for the unseen key
`existing_s9` leave exactly one stored handle. -/
theorem concurrent_create_once_witness :
    countKey (runChatCalls none "ts"
        ⟨some (JsonVal.str "hello"), some "existing", some "s9"⟩
        [SendResult.ok "a", SendResult.err "boom", SendResult.ok "b"] [])
        ("existing" ++ "_" ++ "s9")
      = 1 :=
  (concurrent_create_once none "ts" "hello" "existing" "s9"
    [SendResult.ok "a", SendResult.err "boom", SendResult.ok "b"] []
    (by decide) (by decide) rfl (by decide)).1

/-- Claim C10: the delete route keys on the raw `userType` query value with
no coercion and defaults it to `aspiring`, while the chat route defaults to
`general` and coerces unknown categories to `general`; hence for identical
(category, sessionId) inputs the delete can target a different key than the
one the chat route stored, leaving the stored entry in place. -/
theorem delete_key_divergence (sid : String) :
    deleteSessionKey none sid = "aspiring" ++ "_" ++ sid
    ∧ chatSessionKey none (some sid) = "general" ++ "_" ++ sid
    ∧ (∀ u : String, deleteSessionKey (some u) sid = u ++ "_" ++ sid)
    ∧ (∀ u : String, u ∉ validUserTypes →
        chatSessionKey (some u) (some sid) = "general" ++ "_" ++ sid)
    ∧ tableGet ((handleDelete sid none
          ((handleChat none "ts" InitResult.ok (SendResult.ok "r")
            ⟨some (JsonVal.str "hi"), none, some sid⟩ []).2)).2)
        ("general" ++ "_" ++ sid)
      = some (newChat "general") := by
  have hsel : selectUserType none = "general" := by decide
  have hne : ("general" ++ "_" ++ sid) ≠ ("aspiring" ++ "_" ++ sid) := by
    intro heq
    have hlen := congrArg String.length heq
    simp only [String.length_append] at hlen
    rw [show "general".length = 7 from rfl, show "aspiring".length = 8 from rfl,
      show "_".length = 1 from rfl] at hlen
    omega
  have hbeq : (("general" ++ "_" ++ sid) == ("aspiring" ++ "_" ++ sid)) = false :=
    beq_eq_false_iff_ne.mpr hne
  have hkey : chatSessionKey none (some sid) = "general" ++ "_" ++ sid := by
    simp [chatSessionKey, hsel]
  have ht1 : (handleChat none "ts" InitResult.ok (SendResult.ok "r")
      ⟨some (JsonVal.str "hi"), none, some sid⟩ []).2
      = [("general" ++ "_" ++ sid, newChat "general")] := by
    rw [handleChat_absent_ok none "ts" (SendResult.ok "r")
      ⟨some (JsonVal.str "hi"), none, some sid⟩ [] "hi" rfl rfl]
    simp [tableSet, tableGet, hkey, hsel]
  refine ⟨rfl, hkey, fun u => rfl, ?_, ?_⟩
  · intro u hu
    simp [chatSessionKey, selectUserType, hu]
  · rw [show (handleDelete sid none
        ((handleChat none "ts" InitResult.ok (SendResult.ok "r")
          ⟨some (JsonVal.str "hi"), none, some sid⟩ []).2)).2
      = tableDelete [("general" ++ "_" ++ sid, newChat "general")]
          ("aspiring" ++ "_" ++ sid) from by rw [ht1]; rfl]
    simp [tableDelete, tableGet, List.find?, hbeq]

/-- Claim C10 witness: with the user type absent in both requests, the
chat route stores under `general_s1` while the delete targets
`aspiring_s1`, so the stored entry survives the delete. -/
theorem delete_key_divergence_witness :
    tableGet ((handleDelete "s1" none
          ((handleChat none "ts" InitResult.ok (SendResult.ok "r")
            ⟨some (JsonVal.str "hi"), none, some "s1"⟩ []).2)).2)
        ("general" ++ "_" ++ "s1")
      = some (newChat "general") :=
  (delete_key_divergence "s1").2.2.2.2

end ChatRelay
